import Mathlib

/- Verification of the synthesis core of xtts_api_server (tts_funcs.py,
   class TTSWrapper). The file gives a shallow embedding of the class:
   the filesystem and the torch model are explicit parameters, the
   mutable object is an explicit state record threaded through calls,
   and Python exceptions are an explicit error type. -/

namespace XTTS

/-- Abstract filesystem: the results of os.path.isdir, os.path.isfile and
os.listdir as the code observes them during one call. -/
structure FS where
  isdir : String → Bool
  isfile : String → Bool
  listdir : String → List String

/-- Python str.endswith on whole strings. -/
def py_endswith (s suf : String) : Bool :=
  List.isSuffixOf suf.data s.data

/-- Python os.path.isabs for posix paths: the path starts with a slash. -/
def py_isabs (p : String) : Bool :=
  match p.data with
  | '/' :: _ => true
  | _ => false

/-- Python os.path.join for posix paths and two components: an absolute
second component wins; otherwise the components are glued with a single
slash unless the first is empty or already ends in a slash. -/
def pjoin (a b : String) : String :=
  if py_isabs b = true then b
  else if (a == "") || (a.data.getLast? == some '/') then a ++ b
  else a ++ "/" ++ b

/-- Python exceptions the embedded code can raise. NameError carries the
undefined identifier; ValueError carries the message; RuntimeError stands
for a failure inside the torch model (backend failure). -/
inductive PyErr
  | nameError (n : String)
  | valueError (msg : String)
  | runtimeError (msg : String)

deriving instance DecidableEq for PyErr

/-- Value of the speaker_wav variable: a single reference file or the list
of files of a multi-sample speaker. -/
inductive SpeakerWav
  | single (path : String)
  | multi (paths : List String)

deriving instance DecidableEq for SpeakerWav

/-- Torch model as the code uses it. Conditioning extraction is modelled as
a total function into an abstract latent pair; whether inference
(Xtts.inference) or the remote call (TTS.tts_to_file) raises is modelled by
the two Bool fields. -/
structure Model where
  get_conditioning_latents : SpeakerWav → Nat × Nat
  inference_ok : Bool
  tts_ok : Bool

/-- State of a TTSWrapper object. The fields cuda, device, lowvram,
latents_cache, model_source, speaker_folder and output_folder are the
attributes of the Python object; cudaAvailable is the environment fact
torch.cuda.is_available(); modelDevice is where the model weights
physically are (updated by model.to, it mirrors device); cond_calls counts
invocations of model.get_conditioning_latents, the call counter the spec
asks to assert with. -/
structure TTSWrapper where
  cuda : String
  device : String
  lowvram : Bool
  cudaAvailable : Bool
  latents_cache : List (String × (Nat × Nat))
  model_source : String
  speaker_folder : String
  output_folder : String
  modelDevice : String
  cond_calls : Nat

deriving instance DecidableEq for TTSWrapper

/-- Model of TTSWrapper.switch_model_device: when lowvram is set, cuda is
available and the configured device is not cpu, toggle the device between
cpu and the configured device and move the model there; otherwise do
nothing. The torch.no_grad context and torch.cuda.empty_cache call have no
effect on this state. -/
def switch_model_device (w : TTSWrapper) : TTSWrapper :=
  if w.lowvram = true ∧ w.cudaAvailable = true ∧ w.cuda ≠ "cpu" then
    if w.device = w.cuda then { w with device := "cpu", modelDevice := "cpu" }
    else { w with device := w.cuda, modelDevice := w.cuda }
  else w

/-- Model of TTSWrapper.get_or_create_latents: on a missing key compute the
conditioning latents, store them under speaker_name and bump the call
counter; return the cached entry. -/
def get_or_create_latents (m : Model) (w : TTSWrapper) (speaker_name : String)
    (speaker_wav : SpeakerWav) : (Nat × Nat) × TTSWrapper :=
  match w.latents_cache.lookup speaker_name with
  | some v => (v, w)
  | none =>
    let v := m.get_conditioning_latents speaker_wav
    (v, { w with latents_cache := (speaker_name, v) :: w.latents_cache,
                 cond_calls := w.cond_calls + 1 })

/-- Model of TTSWrapper.get_wav_files: the directory entries ending in the
audio extension, in listing order. -/
def get_wav_files (fs : FS) (directory : String) : List String :=
  (fs.listdir directory).filter (fun f => py_endswith f ".wav")

/-- Python character class of the backslash-s escape, for the characters
this code can meet (ascii whitespace). -/
def py_isspace (c : Char) : Bool :=
  c == ' ' || c == '\t' || c == '\n' || c == '\r' || c == '\x0b' || c == '\x0c'

/-- Matcher for the tail of the quote regex of clean_text, the part after
the opening double quote once an optional leading whitespace has been
handled: it finds the lazily shortest capture group followed by an
optional (greedily taken) whitespace and the closing double quote.
Returns the captured group and the characters after the match. -/
def innerMatch : List Char → Option (List Char × List Char)
  | [] => none
  | c :: t =>
    if py_isspace c = true ∧ t.head? = some '"' then some ([], t.tail)
    else if c = '"' then some ([], t)
    else
      match innerMatch t with
      | some (g, rest) => some (c :: g, rest)
      | none => none

/-- Match of the whole quote pattern at an opening double quote; r is the
text after that quote. The leading optional whitespace is greedy, with a
fallback when consuming it admits no match. -/
def matchQuote : List Char → Option (List Char × List Char)
  | [] => none
  | c :: r' =>
    if py_isspace c = true then
      match innerMatch r' with
      | some res => some res
      | none => innerMatch (c :: r')
    else innerMatch (c :: r')

/-- One pass of re.sub for the quote pattern of clean_text: every match is
replaced by the captured group wrapped in single quotes, scanning left to
right and resuming after each match. The fuel bounds the recursion and is
set to the input length by the caller, which suffices because every match
consumes at least the closing quote character. -/
def quoteSubFuel : Nat → List Char → List Char
  | 0, s => s
  | _ + 1, [] => []
  | fuel + 1, c :: s =>
    if c = '"' then
      match matchQuote s with
      | some (g, rest) => '\'' :: (g ++ '\'' :: quoteSubFuel fuel rest)
      | none => c :: quoteSubFuel fuel s
    else c :: quoteSubFuel fuel s

/-- Model of TTSWrapper.clean_text: the first re.sub deletes every
asterisk, carriage return and line feed; the second rewrites each
double-quoted span (one optional space absorbed at each end) into a
single-quoted span. -/
def clean_text (text : String) : String :=
  let pass1 := text.data.filter (fun c => !(c == '*' || c == '\r' || c == '\n'))
  String.mk (quoteSubFuel pass1.length pass1)

/-- Model of TTSWrapper.get_speaker_wav. An identifier ending in the audio
extension enters the file-name branch, whose first statement evaluates
os.path.isabs on the misspelled identifier spekaer_name_or_path and hence
raises NameError before anything else happens. Otherwise the identifier is
treated as a speaker name: a matching directory yields its audio files (or
ValueError when it has none), else a matching single file is used, else
ValueError. -/
def get_speaker_wav (fs : FS) (speaker_folder : String)
    (speaker_name_or_path : String) : Except PyErr SpeakerWav :=
  if py_endswith speaker_name_or_path ".wav" = true then
    Except.error (PyErr.nameError "spekaer_name_or_path")
  else
    let full_path := pjoin speaker_folder speaker_name_or_path
    let wav_file := full_path ++ ".wav"
    if fs.isdir full_path = true then
      let speaker_wav := (get_wav_files fs full_path).map (fun wav => pjoin full_path wav)
      if speaker_wav.length = 0 then
        Except.error (PyErr.valueError ("no wav files found in " ++ full_path))
      else Except.ok (SpeakerWav.multi speaker_wav)
    else if fs.isfile wav_file = true then
      Except.ok (SpeakerWav.single wav_file)
    else
      Except.error (PyErr.valueError ("Speaker " ++ speaker_name_or_path ++ " not found."))

/-- Model of TTSWrapper.local_generation: obtain the latents through the
cache (threading the state), then run inference with the fixed sampling
parameters and save the waveform; the inference outcome is abstracted by
Model.inference_ok. Timing and logging have no state effect. -/
def local_generation (m : Model) (w : TTSWrapper) (text speaker_name : String)
    (speaker_wav : SpeakerWav) (language output_file : String) :
    Except PyErr Unit × TTSWrapper :=
  let r := get_or_create_latents m w speaker_name speaker_wav
  if m.inference_ok = true then (Except.ok (), r.2)
  else (Except.error (PyErr.runtimeError "inference failed"), r.2)

/-- Model of TTSWrapper.api_generation: delegate to the remote model's
file-producing call; the latent cache is not consulted and the wrapper
state is untouched. -/
def api_generation (m : Model) (text : String) (speaker_wav : SpeakerWav)
    (language output_file : String) : Except PyErr Unit :=
  if m.tts_ok = true then Except.ok ()
  else Except.error (PyErr.runtimeError "tts_to_file failed")

/-- Model of TTSWrapper.process_tts_to_file: resolve the speaker, resolve
the output path (absolute used verbatim, bare name joined under the output
folder), clean the text, run the pre-call device switch, dispatch to the
local or api backend, and only on success run the post-call device switch
and return the output path. The try block re-raises unchanged, so an error
anywhere propagates with the state reached at that point. -/
def process_tts_to_file (fs : FS) (m : Model) (w : TTSWrapper)
    (text speaker_name_or_path language : String)
    (file_name_or_path : String := "out.wav") : Except PyErr String × TTSWrapper :=
  match get_speaker_wav fs w.speaker_folder speaker_name_or_path with
  | Except.error e => (Except.error e, w)
  | Except.ok speaker_wav =>
    let output_file :=
      if py_isabs file_name_or_path = true then file_name_or_path
      else pjoin w.output_folder file_name_or_path
    let clear_text := clean_text text
    let w1 := switch_model_device w
    if w.model_source = "local" then
      let r := local_generation m w1 clear_text speaker_name_or_path speaker_wav
                 language output_file
      match r.1 with
      | Except.error e => (Except.error e, r.2)
      | Except.ok _ => (Except.ok output_file, switch_model_device r.2)
    else
      match api_generation m clear_text speaker_wav language output_file with
      | Except.error e => (Except.error e, w1)
      | Except.ok _ => (Except.ok output_file, switch_model_device w1)

/-- Root part of Python os.path.splitext for a directory-entry basename
ending in the audio extension: the name with that extension removed; a
name that is only the extension (a leading-dot file) has no extension and
is returned whole. -/
def py_splitext_root (f : String) : String :=
  if py_endswith f ".wav" = true ∧ 4 < f.data.length then
    String.mk (f.data.take (f.data.length - 4))
  else f

/-- Record produced by TTSWrapper._get_speakers for one directory entry. -/
structure Speaker where
  speaker_name : String
  speaker_wav : SpeakerWav
  preview : String

deriving instance DecidableEq for Speaker

/-- Model of TTSWrapper._get_speakers: scan the speaker folder; a
subdirectory with at least one audio file is a multi-sample speaker named
by the directory; a file ending in the audio extension is a single-sample
speaker named by the filename without extension; everything else is
skipped. -/
def _get_speakers (fs : FS) (speaker_folder : String) : List Speaker :=
  (fs.listdir speaker_folder).filterMap (fun f =>
    let full_path := pjoin speaker_folder f
    if fs.isdir full_path = true then
      match get_wav_files fs full_path with
      | [] => none
      | s0 :: rest =>
        some { speaker_name := f,
               speaker_wav := SpeakerWav.multi
                 ((s0 :: rest).map (fun s => pjoin (pjoin speaker_folder f) s)),
               preview := pjoin f s0 }
    else if py_endswith f ".wav" = true then
      some { speaker_name := py_splitext_root f,
             speaker_wav := SpeakerWav.single full_path,
             preview := f }
    else none)

/-- Model of TTSWrapper.get_speakers: the display names of the scan. -/
def get_speakers (fs : FS) (speaker_folder : String) : List String :=
  (_get_speakers fs speaker_folder).map (fun s => s.speaker_name)

/-- Helper: whether an Except value is an error. -/
def isErrorB {α : Type} (e : Except PyErr α) : Bool :=
  match e with
  | Except.error _ => true
  | Except.ok _ => false

/-- Helper: whether a resolution result is the SpeakerNotFound error kind
of the spec, which the code signals as ValueError. -/
def isSpeakerNotFound (e : Except PyErr SpeakerWav) : Bool :=
  match e with
  | Except.error (PyErr.valueError _) => true
  | _ => false

/-- Cache access leaves the device field alone. -/
lemma goc_snd_device (m : Model) (w : TTSWrapper) (n : String) (v : SpeakerWav) :
    ((get_or_create_latents m w n v).2).device = w.device := by
  unfold get_or_create_latents
  cases w.latents_cache.lookup n <;> rfl

/-- Cache access leaves the physical model placement alone. -/
lemma goc_snd_modelDevice (m : Model) (w : TTSWrapper) (n : String) (v : SpeakerWav) :
    ((get_or_create_latents m w n v).2).modelDevice = w.modelDevice := by
  unfold get_or_create_latents
  cases w.latents_cache.lookup n <;> rfl

/-- Cache access leaves the configured device alone. -/
lemma goc_snd_cuda (m : Model) (w : TTSWrapper) (n : String) (v : SpeakerWav) :
    ((get_or_create_latents m w n v).2).cuda = w.cuda := by
  unfold get_or_create_latents
  cases w.latents_cache.lookup n <;> rfl

/-- Cache access leaves the low-memory flag alone. -/
lemma goc_snd_lowvram (m : Model) (w : TTSWrapper) (n : String) (v : SpeakerWav) :
    ((get_or_create_latents m w n v).2).lowvram = w.lowvram := by
  unfold get_or_create_latents
  cases w.latents_cache.lookup n <;> rfl

/-- Cache access leaves the accelerator-availability fact alone. -/
lemma goc_snd_cudaAvailable (m : Model) (w : TTSWrapper) (n : String) (v : SpeakerWav) :
    ((get_or_create_latents m w n v).2).cudaAvailable = w.cudaAvailable := by
  unfold get_or_create_latents
  cases w.latents_cache.lookup n <;> rfl

/-- Cache access either leaves the cache alone (hit) or pushes exactly one
new entry keyed by the speaker name it was given (miss). -/
lemma goc_snd_cache (m : Model) (w : TTSWrapper) (n : String) (v : SpeakerWav) :
    ((get_or_create_latents m w n v).2).latents_cache = w.latents_cache ∨
    ((get_or_create_latents m w n v).2).latents_cache
      = (n, m.get_conditioning_latents v) :: w.latents_cache := by
  unfold get_or_create_latents
  cases w.latents_cache.lookup n with
  | none => exact Or.inr rfl
  | some p => exact Or.inl rfl

/-- Device switching never touches the latent cache. -/
lemma switch_cache (w : TTSWrapper) :
    (switch_model_device w).latents_cache = w.latents_cache := by
  unfold switch_model_device
  split_ifs <;> rfl

/-- Device switching never touches the low-memory flag. -/
lemma switch_lowvram (w : TTSWrapper) :
    (switch_model_device w).lowvram = w.lowvram := by
  unfold switch_model_device
  split_ifs <;> rfl

/-- Device switching never touches the availability fact. -/
lemma switch_cudaAvailable (w : TTSWrapper) :
    (switch_model_device w).cudaAvailable = w.cudaAvailable := by
  unfold switch_model_device
  split_ifs <;> rfl

/-- Device switching never touches the configured device. -/
lemma switch_cuda (w : TTSWrapper) :
    (switch_model_device w).cuda = w.cuda := by
  unfold switch_model_device
  split_ifs <;> rfl

/-- Identifiers ending in the audio extension always raise NameError in
get_speaker_wav, because the file-name branch evaluates os.path.isabs on a
misspelled, hence undefined, identifier. -/
lemma wav_suffix_raises (fs : FS) (sf nm : String)
    (h : py_endswith nm ".wav" = true) :
    get_speaker_wav fs sf nm = Except.error (PyErr.nameError "spekaer_name_or_path") := by
  unfold get_speaker_wav
  rw [if_pos h]

/-- Characters of the group and of the remainder produced by innerMatch
come from its input. -/
lemma innerMatch_mem : ∀ (t g rest : List Char), innerMatch t = some (g, rest) →
    (∀ c, c ∈ g → c ∈ t) ∧ (∀ c, c ∈ rest → c ∈ t) := by
  intro t
  induction t with
  | nil =>
    intro g rest h
    exact absurd h (by simp [innerMatch])
  | cons a t ih =>
    intro g rest h
    unfold innerMatch at h
    split_ifs at h with h1 h2
    · simp only [Option.some.injEq, Prod.mk.injEq] at h
      obtain ⟨rfl, rfl⟩ := h
      refine ⟨fun c hc => absurd hc (List.not_mem_nil c), fun c hc => ?_⟩
      exact List.mem_cons_of_mem a (List.mem_of_mem_tail hc)
    · simp only [Option.some.injEq, Prod.mk.injEq] at h
      obtain ⟨rfl, rfl⟩ := h
      exact ⟨fun c hc => absurd hc (List.not_mem_nil c),
             fun c hc => List.mem_cons_of_mem a hc⟩
    · cases hi : innerMatch t with
      | none => rw [hi] at h; exact absurd h (by simp)
      | some p =>
        obtain ⟨g', rest'⟩ := p
        rw [hi] at h
        simp only [Option.some.injEq, Prod.mk.injEq] at h
        obtain ⟨rfl, rfl⟩ := h
        obtain ⟨hg, hr⟩ := ih g' rest' hi
        constructor
        · intro c hc
          rcases List.mem_cons.mp hc with hca | hc
          · exact List.mem_cons.mpr (Or.inl hca)
          · exact List.mem_cons.mpr (Or.inr (hg c hc))
        · intro c hc
          exact List.mem_cons_of_mem a (hr c hc)

/-- Characters of the group and of the remainder produced by matchQuote
come from its input. -/
lemma matchQuote_mem : ∀ (r g rest : List Char), matchQuote r = some (g, rest) →
    (∀ c, c ∈ g → c ∈ r) ∧ (∀ c, c ∈ rest → c ∈ r) := by
  intro r g rest h
  cases r with
  | nil => exact absurd h (by simp [matchQuote])
  | cons a r' =>
    simp only [matchQuote] at h
    split_ifs at h with hs
    · cases hi : innerMatch r' with
      | some p =>
        obtain ⟨g', rest'⟩ := p
        rw [hi] at h
        simp only [Option.some.injEq, Prod.mk.injEq] at h
        obtain ⟨rfl, rfl⟩ := h
        obtain ⟨hg, hr⟩ := innerMatch_mem r' g' rest' hi
        exact ⟨fun c hc => List.mem_cons_of_mem a (hg c hc),
               fun c hc => List.mem_cons_of_mem a (hr c hc)⟩
      | none =>
        rw [hi] at h
        exact innerMatch_mem (a :: r') g rest h
    · exact innerMatch_mem (a :: r') g rest h

/-- Characters of a quote-substitution result either come from its input
or are the single quotes it inserts. -/
lemma quoteSubFuel_mem : ∀ (fuel : Nat) (l : List Char) (c : Char),
    c ∈ quoteSubFuel fuel l → c ∈ l ∨ c = '\'' := by
  intro fuel
  induction fuel with
  | zero => exact fun l c hc => Or.inl hc
  | succ n ih =>
    intro l c hc
    cases l with
    | nil => exact absurd hc (List.not_mem_nil c)
    | cons a s =>
      unfold quoteSubFuel at hc
      split_ifs at hc with ha
      · cases hm : matchQuote s with
        | some p =>
          obtain ⟨g, rest⟩ := p
          rw [hm] at hc
          rcases List.mem_cons.mp hc with rfl | hc
          · exact Or.inr rfl
          · rcases List.mem_append.mp hc with hc | hc
            · exact Or.inl (List.mem_cons_of_mem a ((matchQuote_mem s g rest hm).1 c hc))
            · rcases List.mem_cons.mp hc with rfl | hc
              · exact Or.inr rfl
              · rcases ih rest c hc with hc | hc
                · exact Or.inl (List.mem_cons_of_mem a ((matchQuote_mem s g rest hm).2 c hc))
                · exact Or.inr hc
        | none =>
          rw [hm] at hc
          rcases List.mem_cons.mp hc with hca | hc
          · exact Or.inl (List.mem_cons.mpr (Or.inl hca))
          · rcases ih s c hc with hc | hc
            · exact Or.inl (List.mem_cons_of_mem a hc)
            · exact Or.inr hc
      · rcases List.mem_cons.mp hc with hca | hc
        · exact Or.inl (List.mem_cons.mpr (Or.inl hca))
        · rcases ih s c hc with hc | hc
          · exact Or.inl (List.mem_cons_of_mem a hc)
          · exact Or.inr hc

/-- Fixture: a speaker folder holding one multi-sample speaker bob with
two files, in this listing order. -/
def fs_bob : FS :=
  { isdir := fun p => p == "sp/bob",
    isfile := fun _ => false,
    listdir := fun p =>
      if p == "sp" then ["bob"]
      else if p == "sp/bob" then ["b1.wav", "b2.wav"]
      else [] }

/-- Fixture: a speaker folder whose only entry is a directory without
direct audio files, which itself holds a subdirectory with one audio
file; the registry scan therefore lists no speaker at all. -/
def fs_nested : FS :=
  { isdir := fun p => p == "sp/a" || p == "sp/a/b",
    isfile := fun _ => false,
    listdir := fun p =>
      if p == "sp" then ["a"]
      else if p == "sp/a" then ["b"]
      else if p == "sp/a/b" then ["x.wav"]
      else [] }

/-- Fixture: a model whose backend calls succeed. -/
def m_ok : Model :=
  { get_conditioning_latents := fun _ => (0, 0), inference_ok := true, tts_ok := true }

/-- Fixture: a model whose backend calls raise. -/
def m_bad : Model :=
  { get_conditioning_latents := fun _ => (0, 0), inference_ok := false, tts_ok := false }

/-- Fixture: a wrapper in low-memory mode with an available accelerator,
model on the host as after loading. -/
def w_low : TTSWrapper :=
  { cuda := "cuda", device := "cpu", lowvram := true, cudaAvailable := true,
    latents_cache := [], model_source := "local", speaker_folder := "sp",
    output_folder := "out", modelDevice := "cpu", cond_calls := 0 }

/-- Fixture: the low-memory wrapper with the model currently on the
accelerator. -/
def w_hot : TTSWrapper :=
  { cuda := "cuda", device := "cuda", lowvram := true, cudaAvailable := true,
    latents_cache := [], model_source := "local", speaker_folder := "sp",
    output_folder := "out", modelDevice := "cuda", cond_calls := 0 }

/-- Fixture: a wrapper without low-memory mode, model resident on the
accelerator. -/
def w_plain : TTSWrapper :=
  { cuda := "cuda", device := "cuda", lowvram := false, cudaAvailable := true,
    latents_cache := [], model_source := "local", speaker_folder := "sp",
    output_folder := "out", modelDevice := "cuda", cond_calls := 0 }

/-- Fixture: a single reference file. -/
def wav0 : SpeakerWav := SpeakerWav.single "sp/alice.wav"

/-- C3: get_or_create_latents is idempotent. For a speaker that is not yet
cached, the first call runs the conditioning extraction exactly once (the
call counter rises by exactly one) and stores the pair under the speaker
name; a second call with the same name returns the identical pair and the
identical state, so the cache hit returns the stored pair without invoking
the model again. -/
theorem C3_get_or_create_latents :
    ∀ (m : Model) (w : TTSWrapper) (n : String) (v : SpeakerWav),
    w.latents_cache.lookup n = none →
    get_or_create_latents m (get_or_create_latents m w n v).2 n v
      = get_or_create_latents m w n v ∧
    (get_or_create_latents m w n v).2.cond_calls = w.cond_calls + 1 ∧
    (get_or_create_latents m w n v).2.latents_cache.lookup n
      = some (get_or_create_latents m w n v).1 := by
  intro m w n v h
  have h1 : get_or_create_latents m w n v =
      (m.get_conditioning_latents v,
       { w with latents_cache := (n, m.get_conditioning_latents v) :: w.latents_cache,
                cond_calls := w.cond_calls + 1 }) := by
    unfold get_or_create_latents
    rw [h]
  rw [h1]
  refine ⟨?_, rfl, ?_⟩
  · unfold get_or_create_latents
    simp [List.lookup]
  · simp [List.lookup]

/-- Witness for C3 at a concrete fresh cache. -/
theorem C3_witness :
    w_plain.latents_cache.lookup "alice" = none ∧
    (get_or_create_latents m_ok w_plain "alice" wav0).2.cond_calls
      = w_plain.cond_calls + 1 :=
  ⟨rfl, (C3_get_or_create_latents m_ok w_plain "alice" wav0 rfl).2.1⟩

/-- C5 counterexample: with low-memory mode on, an available accelerator
and the model currently on it, applying the device transition twice does
not yield the placement one application yields, so the transition is not
idempotent. -/
theorem C5_counterexample :
    ¬((switch_model_device (switch_model_device w_hot)).device
        = (switch_model_device w_hot).device) := by
  decide

/-- C5 amended: the transition is a toggle, not an idempotent move. From
any state whose device is host memory or the configured accelerator and
whose physical placement agrees with the device field, applying the
transition twice restores the starting placement (an involution); it is a
no-op only when the low-memory guard fails. -/
theorem C5_involution : ∀ w : TTSWrapper,
    (w.device = "cpu" ∨ w.device = w.cuda) → w.modelDevice = w.device →
    switch_model_device (switch_model_device w) = w := by
  intro w hd hmd
  obtain ⟨cu, de, lv, ca, lc, ms, sf, od, md, cc⟩ := w
  dsimp only at hd hmd
  by_cases h : lv = true ∧ ca = true ∧ cu ≠ "cpu"
  · obtain ⟨hl, hca, hne⟩ := h
    rcases hd with hd | hd
    · have e1 : switch_model_device
            (⟨cu, de, lv, ca, lc, ms, sf, od, md, cc⟩ : TTSWrapper)
          = ⟨cu, cu, lv, ca, lc, ms, sf, od, cu, cc⟩ := by
        unfold switch_model_device
        dsimp only
        rw [if_pos ⟨hl, hca, hne⟩, if_neg (by rw [hd]; exact fun e => hne e.symm)]
      have e2 : switch_model_device
            (⟨cu, cu, lv, ca, lc, ms, sf, od, cu, cc⟩ : TTSWrapper)
          = ⟨cu, "cpu", lv, ca, lc, ms, sf, od, "cpu", cc⟩ := by
        unfold switch_model_device
        dsimp only
        rw [if_pos ⟨hl, hca, hne⟩, if_pos rfl]
      rw [e1, e2, hmd, hd]
    · have e1 : switch_model_device
            (⟨cu, de, lv, ca, lc, ms, sf, od, md, cc⟩ : TTSWrapper)
          = ⟨cu, "cpu", lv, ca, lc, ms, sf, od, "cpu", cc⟩ := by
        unfold switch_model_device
        dsimp only
        rw [if_pos ⟨hl, hca, hne⟩, if_pos hd]
      have e2 : switch_model_device
            (⟨cu, "cpu", lv, ca, lc, ms, sf, od, "cpu", cc⟩ : TTSWrapper)
          = ⟨cu, cu, lv, ca, lc, ms, sf, od, cu, cc⟩ := by
        unfold switch_model_device
        dsimp only
        rw [if_pos ⟨hl, hca, hne⟩, if_neg (fun e => hne e.symm)]
      rw [e1, e2, hmd, hd]
  · have hsw : switch_model_device
        (⟨cu, de, lv, ca, lc, ms, sf, od, md, cc⟩ : TTSWrapper)
        = ⟨cu, de, lv, ca, lc, ms, sf, od, md, cc⟩ := by
      unfold switch_model_device
      dsimp only
      rw [if_neg h]
    rw [hsw, hsw]

/-- Witness for C5 at the low-memory wrapper resting on the host. -/
theorem C5_witness :
    (w_low.device = "cpu" ∨ w_low.device = w_low.cuda) ∧
    w_low.modelDevice = w_low.device ∧
    switch_model_device (switch_model_device w_low) = w_low :=
  ⟨Or.inl rfl, rfl, C5_involution w_low (Or.inl rfl) rfl⟩

/-- C6: the claim says an absolute identifier ending in the audio
extension is returned unchanged and without error; the code instead raises
NameError for every such identifier, whatever the filesystem, because the
isabs test reads the misspelled undefined name spekaer_name_or_path. -/
theorem C6_absolute_wav_raises : ∀ (fs : FS) (sf : String),
    get_speaker_wav fs sf "/tmp/foo.wav"
      = Except.error (PyErr.nameError "spekaer_name_or_path") :=
  fun _ _ => rfl

/-- C10: the claim says a relative identifier ending in the audio
extension is joined under the speaker directory without any existence
check and never fails; the code instead raises NameError for every such
identifier, whatever the filesystem, for the same misspelling. -/
theorem C10_relative_wav_raises : ∀ (fs : FS) (sf : String),
    get_speaker_wav fs sf "foo.wav"
      = Except.error (PyErr.nameError "spekaer_name_or_path") :=
  fun _ _ => rfl

/-- C4: across a synthesis call the device changes only when low-memory
mode is on, the accelerator is available and the configured device is not
host memory; in every other configuration the transition is the identity,
so both the device field and the physical model placement are unchanged by
the pre-call and post-call transitions and by the whole synthesis call. -/
theorem C4_frame : ∀ w : TTSWrapper,
    ¬(w.lowvram = true ∧ w.cudaAvailable = true ∧ w.cuda ≠ "cpu") →
    switch_model_device w = w ∧
    ∀ (fs : FS) (m : Model) (text nm lang fop : String),
      (process_tts_to_file fs m w text nm lang fop).2.device = w.device ∧
      (process_tts_to_file fs m w text nm lang fop).2.modelDevice = w.modelDevice := by
  intro w h
  have hsw : switch_model_device w = w := by
    unfold switch_model_device
    rw [if_neg h]
  refine ⟨hsw, ?_⟩
  intro fs m text nm lang fop
  cases hg : get_speaker_wav fs w.speaker_folder nm with
  | error e => simp [process_tts_to_file, hg]
  | ok wav =>
    by_cases hms : w.model_source = "local"
    · have h2 : ¬((get_or_create_latents m w nm wav).2.lowvram = true ∧
          (get_or_create_latents m w nm wav).2.cudaAvailable = true ∧
          (get_or_create_latents m w nm wav).2.cuda ≠ "cpu") := by
        rw [goc_snd_lowvram, goc_snd_cudaAvailable, goc_snd_cuda]
        exact h
      have hsw2 : switch_model_device (get_or_create_latents m w nm wav).2
          = (get_or_create_latents m w nm wav).2 := by
        unfold switch_model_device
        rw [if_neg h2]
      cases hio : m.inference_ok
      · simp [process_tts_to_file, hg, hms, hsw, local_generation, hio,
              goc_snd_device, goc_snd_modelDevice]
      · simp [process_tts_to_file, hg, hms, hsw, local_generation, hio, hsw2,
              goc_snd_device, goc_snd_modelDevice]
    · cases hts : m.tts_ok
      · simp [process_tts_to_file, hg, hms, api_generation, hts, hsw]
      · simp [process_tts_to_file, hg, hms, api_generation, hts, hsw]

/-- Witness for C4 at a wrapper without low-memory mode. -/
theorem C4_witness :
    ¬(w_plain.lowvram = true ∧ w_plain.cudaAvailable = true ∧ w_plain.cuda ≠ "cpu") ∧
    switch_model_device w_plain = w_plain ∧
    (process_tts_to_file fs_bob m_ok w_plain "hi" "bob" "en" "out.wav").2.device
      = w_plain.device :=
  ⟨by decide, (C4_frame w_plain (by decide)).1,
   ((C4_frame w_plain (by decide)).2 fs_bob m_ok "hi" "bob" "en" "out.wav").1⟩

/-- C1 counterexample: in low-memory mode with the model on the host, a
synthesis call whose backend dispatch raises returns the error with the
model still on the accelerator, not restored to its pre-call placement. -/
theorem C1_counterexample :
    isErrorB (process_tts_to_file fs_bob m_bad w_low "hello" "bob" "en" "out.wav").1 = true ∧
    w_low.device = "cpu" ∧
    ¬((process_tts_to_file fs_bob m_bad w_low "hello" "bob" "en" "out.wav").2.device
        = w_low.device) := by
  refine ⟨rfl, rfl, ?_⟩
  decide

/-- C1 amended: when the backend dispatch raises, the post-call transition
is not executed: the error propagates with the wrapper in the state the
pre-call transition produced, so in low-memory mode the model remains on
the accelerator; only the successful path restores the prior placement. -/
theorem C1_no_restore_on_failure :
    ∀ (fs : FS) (m : Model) (w : TTSWrapper) (text nm lang fop : String)
      (wav : SpeakerWav),
    get_speaker_wav fs w.speaker_folder nm = Except.ok wav →
    m.inference_ok = false → m.tts_ok = false →
    isErrorB (process_tts_to_file fs m w text nm lang fop).1 = true ∧
    (process_tts_to_file fs m w text nm lang fop).2.device
      = (switch_model_device w).device ∧
    (process_tts_to_file fs m w text nm lang fop).2.modelDevice
      = (switch_model_device w).modelDevice := by
  intro fs m w text nm lang fop wav hg hio hts
  by_cases hms : w.model_source = "local"
  · simp [process_tts_to_file, hg, hms, local_generation, hio, isErrorB,
          goc_snd_device, goc_snd_modelDevice]
  · simp [process_tts_to_file, hg, hms, api_generation, hts, isErrorB]

/-- Witness for C1 at the concrete failing run of the counterexample. -/
theorem C1_witness :
    get_speaker_wav fs_bob w_low.speaker_folder "bob"
      = Except.ok (SpeakerWav.multi ["sp/bob/b1.wav", "sp/bob/b2.wav"]) ∧
    m_bad.inference_ok = false ∧ m_bad.tts_ok = false ∧
    ((process_tts_to_file fs_bob m_bad w_low "hello" "bob" "en" "out.wav").2.device
      = (switch_model_device w_low).device) :=
  ⟨rfl, rfl, rfl,
   (C1_no_restore_on_failure fs_bob m_bad w_low "hello" "bob" "en" "out.wav"
     (SpeakerWav.multi ["sp/bob/b1.wav", "sp/bob/b2.wav"]) rfl rfl rfl).2.1⟩

/-- Fixture: a wrapper for the nested-identifier run, no low-memory mode,
local backend, empty cache. -/
def w_nested : TTSWrapper :=
  { cuda := "cuda", device := "cuda", lowvram := false, cudaAvailable := true,
    latents_cache := [], model_source := "local", speaker_folder := "sp",
    output_folder := "out", modelDevice := "cuda", cond_calls := 0 }

/-- C2 counterexample: the synthesis call with identifier a/b (a nested
path that resolves to a directory of audio files) stores its latents under
the raw identifier a/b, while the registry scan of the same folder
produces no display name at all; so the stored key is not a speaker
display name produced by the registry. -/
theorem C2_counterexample :
    (process_tts_to_file fs_nested m_ok w_nested "hi" "a/b" "en" "o.wav").2.latents_cache.map
        Prod.fst = ["a/b"] ∧
    get_speakers fs_nested "sp" = [] ∧
    ¬("a/b" ∈ get_speakers fs_nested "sp") := by
  refine ⟨rfl, rfl, ?_⟩
  decide

/-- C2 amended: a local-backend synthesis call that stores a new latent
entry stores it under the raw identifier string the caller passed, which
never ends in the audio extension (such identifiers fail resolution with
NameError before the cache is reached); the key therefore coincides with a
registry display name only when the caller passed exactly a top-level
speaker name, and is never produced from a path by trimming. -/
theorem C2_cache_key_is_raw_identifier :
    ∀ (fs : FS) (m : Model) (w : TTSWrapper) (text nm lang fop : String),
    (process_tts_to_file fs m w text nm lang fop).2.latents_cache = w.latents_cache ∨
    (py_endswith nm ".wav" = false ∧ ∃ v,
      (process_tts_to_file fs m w text nm lang fop).2.latents_cache
        = (nm, v) :: w.latents_cache) := by
  intro fs m w text nm lang fop
  cases hg : get_speaker_wav fs w.speaker_folder nm with
  | error e =>
    left
    simp [process_tts_to_file, hg]
  | ok wav =>
    have hnw : py_endswith nm ".wav" = false := by
      cases hb : py_endswith nm ".wav"
      · rfl
      · rw [wav_suffix_raises fs w.speaker_folder nm hb] at hg
        exact Except.noConfusion hg
    by_cases hms : w.model_source = "local"
    · rcases goc_snd_cache m (switch_model_device w) nm wav with hc | hc
      · left
        cases hio : m.inference_ok <;>
          simp [process_tts_to_file, hg, hms, local_generation, hio, hc,
                switch_cache]
      · right
        refine ⟨hnw, m.get_conditioning_latents wav, ?_⟩
        cases hio : m.inference_ok <;>
          simp [process_tts_to_file, hg, hms, local_generation, hio, hc,
                switch_cache]
    · left
      cases hts : m.tts_ok <;>
        simp [process_tts_to_file, hg, hms, api_generation, hts, switch_cache]

/-- C7: for an identifier without the audio extension, resolution fails
with the SpeakerNotFound kind exactly when the matching directory exists
but holds no audio files or when neither the directory nor the matching
single file exists; and a matching directory with audio files yields all
its audio files, joined under it, in directory-listing order. -/
theorem C7_name_resolution : ∀ (fs : FS) (sf nm : String),
    py_endswith nm ".wav" = false →
    (isSpeakerNotFound (get_speaker_wav fs sf nm) = true ↔
      ((fs.isdir (pjoin sf nm) = true ∧ get_wav_files fs (pjoin sf nm) = []) ∨
       (fs.isdir (pjoin sf nm) = false ∧
        fs.isfile (pjoin sf nm ++ ".wav") = false))) ∧
    (fs.isdir (pjoin sf nm) = true → get_wav_files fs (pjoin sf nm) ≠ [] →
      get_speaker_wav fs sf nm = Except.ok (SpeakerWav.multi
        ((get_wav_files fs (pjoin sf nm)).map (fun wav => pjoin (pjoin sf nm) wav)))) := by
  intro fs sf nm h
  have h' : ¬(py_endswith nm ".wav" = true) := by
    rw [h]
    exact Bool.false_ne_true
  constructor
  · unfold get_speaker_wav
    rw [if_neg h']
    by_cases hd : fs.isdir (pjoin sf nm) = true
    · by_cases hw : get_wav_files fs (pjoin sf nm) = []
      · simp [hd, hw, isSpeakerNotFound]
      · have hlen : ¬(((get_wav_files fs (pjoin sf nm)).map
            (fun wav => pjoin (pjoin sf nm) wav)).length = 0) := by
          simp [List.length_eq_zero, hw]
        simp [hd, hw, hlen, isSpeakerNotFound]
    · have hd' : fs.isdir (pjoin sf nm) = false := by
        cases hb : fs.isdir (pjoin sf nm)
        · rfl
        · exact absurd hb hd
      by_cases hf : fs.isfile (pjoin sf nm ++ ".wav") = true
      · simp [hd, hd', hf, isSpeakerNotFound]
      · have hf' : fs.isfile (pjoin sf nm ++ ".wav") = false := by
          cases hb : fs.isfile (pjoin sf nm ++ ".wav")
          · rfl
          · exact absurd hb hf
        simp [hd, hd', hf, hf', isSpeakerNotFound]
  · intro hd hw
    have hlen : ¬(((get_wav_files fs (pjoin sf nm)).map
        (fun wav => pjoin (pjoin sf nm) wav)).length = 0) := by
      simp [List.length_eq_zero, hw]
    unfold get_speaker_wav
    rw [if_neg h']
    simp only [hd, if_true, if_pos hd]
    rw [if_neg hlen]

/-- Witness for C7 at the two-file speaker bob. -/
theorem C7_witness :
    py_endswith "bob" ".wav" = false ∧
    fs_bob.isdir (pjoin "sp" "bob") = true ∧
    get_speaker_wav fs_bob "sp" "bob" = Except.ok (SpeakerWav.multi
      ((get_wav_files fs_bob (pjoin "sp" "bob")).map
        (fun wav => pjoin (pjoin "sp" "bob") wav))) :=
  ⟨rfl, rfl, (C7_name_resolution fs_bob "sp" "bob" rfl).2 rfl (by decide)⟩

/-- C8: text normalization yields a result free of asterisks, carriage
returns and line feeds for every input, and the specified example with
asterisks, a line break and a double-quoted span normalizes to the
single-quoted form. -/
theorem C8_clean_text :
    (∀ text : String,
      (clean_text text).data.filter
        (fun c => c == '*' || c == '\r' || c == '\n') = []) ∧
    clean_text "*hi*\n\"there\"" = "hi'there'" := by
  constructor
  · intro text
    rw [List.filter_eq_nil_iff]
    intro c hc
    rcases quoteSubFuel_mem _ _ c hc with hmem | hq
    · have := (List.mem_filter.mp hmem).2
      simpa using this
    · rw [hq]
      decide
  · decide

/-- C9: the synthesis call resolves an absolute output target verbatim and
joins a bare filename under the output folder, and every successful call
returns exactly that resolved path; the two worked examples of the spec
hold for the resolver. -/
theorem C9_output_resolution :
    (∀ (fs : FS) (m : Model) (w : TTSWrapper) (text nm lang fop p : String),
      (process_tts_to_file fs m w text nm lang fop).1 = Except.ok p →
      p = (if py_isabs fop = true then fop else pjoin w.output_folder fop)) ∧
    pjoin "/out" "clip.wav" = "/out/clip.wav" ∧
    (if py_isabs "/tmp/x.wav" = true then "/tmp/x.wav" else pjoin "/out" "/tmp/x.wav")
      = "/tmp/x.wav" := by
  refine ⟨?_, rfl, rfl⟩
  intro fs m w text nm lang fop p hp
  cases hg : get_speaker_wav fs w.speaker_folder nm with
  | error e =>
    rw [process_tts_to_file, hg] at hp
    exact Except.noConfusion hp
  | ok wav =>
    by_cases hms : w.model_source = "local"
    · cases hio : m.inference_ok
      · simp [process_tts_to_file, hg, hms, local_generation, hio] at hp
      · simp [process_tts_to_file, hg, hms, local_generation, hio] at hp
        exact hp.symm
    · cases hts : m.tts_ok
      · simp [process_tts_to_file, hg, hms, api_generation, hts] at hp
      · simp [process_tts_to_file, hg, hms, api_generation, hts] at hp
        exact hp.symm

/-- Witness for C9 at a successful concrete run with a bare filename. -/
theorem C9_witness :
    (process_tts_to_file fs_bob m_ok w_nested "hi" "bob" "en" "clip.wav").1
      = Except.ok "out/clip.wav" ∧
    "out/clip.wav"
      = (if py_isabs "clip.wav" = true then "clip.wav"
         else pjoin w_nested.output_folder "clip.wav") :=
  ⟨rfl, C9_output_resolution.1 fs_bob m_ok w_nested "hi" "bob" "en" "clip.wav"
    "out/clip.wav" rfl⟩

end XTTS
